import Mathlib

/-!
Shallow embedding of `src/janus_client/transport.py` (module `janus_client.transport`).

The file models, faithfully to the Python source:
  * `JanusMessage` (dataclass, lines 17-20): two required fields, no defaults;
  * `JanusTransport.create_session` / `JanusTransport.destroy_session`
    (lines 31-46);
  * `JanusTransportHTTP` (lines 49-145): `__init__`, `__sanitize_message`,
    `__build_uri`, `send`; `receive` is `pass` (line 144-145), so nothing
    ever enqueues into a transaction queue.

Python dicts are modelled as insertion-ordered association lists with unique
keys (`pySet` updates in place, `pyDel` removes the binding for a key).
Machine-level effects (logging, the HTTP GET) are modelled as explicit lists
accumulated in the result.  Exceptions are an inductive `PyError`; a Python
function that can raise returns `Except PyError _` or a result record whose
`result` field records the raise.
-/

/-- A scalar JSON value as carried in an outgoing message dict: the fields the
transport itself reads or writes (`janus`, `transaction`, `api_secret`,
`token`) are strings; ids are ints. -/
inductive PyVal where
  | str (s : String)
  | num (n : Int)
  deriving DecidableEq

/-- A Python dict with string keys, insertion ordered. -/
abbrev PyDict := List (String × PyVal)

/-- Dict lookup `d[k]` / `k in d`: first binding with the key (keys are unique
in any dict built by the code, since `pySet` updates in place). -/
def pyGet [DecidableEq κ] : List (κ × α) → κ → Option α
  | [], _ => none
  | (k', v) :: rest, k => if k' = k then some v else pyGet rest k

/-- Dict assignment `d[k] = v`: update the existing binding in place (keeping
its position, as Python dicts do) or append a new one. -/
def pySet [DecidableEq κ] : List (κ × α) → κ → α → List (κ × α)
  | [], k, v => [(k, v)]
  | (k', v') :: rest, k, v =>
      if k' = k then (k, v) :: rest else (k', v') :: pySet rest k v

/-- Dict deletion `del d[k]` after a successful membership check: removes the
binding for `k` (dict keys are unique, so at most one binding exists). -/
def pyDel [DecidableEq κ] : List (κ × α) → κ → List (κ × α)
  | [], _ => []
  | (k', v) :: rest, k =>
      if k' = k then pyDel rest k else (k', v) :: pyDel rest k

/-- A raised Python exception, by kind.  The first six are the exceptions the
code in `src` can actually raise; `timeoutError` and `protocolError` are
modelled from the spec's error taxonomy (§7) for comparison — no class of
either name exists anywhere in `src`, and no code path produces them. -/
inductive PyError where
  | exceptionMustSetJanus
  | typeErrorMissingArg (callee arg : String)
  | attributeError (ty attr : String)
  | keyError (key : String)
  | typeErrorNotSubscriptable
  | valueError (s : String)
  | timeoutError
  | protocolError
  deriving DecidableEq

/-- Python `str(v)` as interpolated into an f-string. -/
def pyStr : PyVal → String
  | PyVal.str s => s
  | PyVal.num n => toString n

/-- One character of `json.dumps` string escaping (the characters appearing in
this development need only quote and backslash escapes). -/
def json_escape_char (c : Char) : String :=
  if c = '"' then "\\\"" else if c = '\\' then "\\\\" else String.singleton c

/-- `json.dumps` escaping of a string. -/
def json_escape (s : String) : String :=
  String.join (s.data.map json_escape_char)

/-- `json.dumps` of a scalar value. -/
def json_val : PyVal → String
  | PyVal.str s => "\"" ++ json_escape s ++ "\""
  | PyVal.num n => toString n

/-- `json.dumps` of the members of an object, Python default separators. -/
def json_fields : PyDict → String
  | [] => ""
  | [(k, v)] => "\"" ++ json_escape k ++ "\": " ++ json_val v
  | (k, v) :: rest =>
      "\"" ++ json_escape k ++ "\": " ++ json_val v ++ ", " ++ json_fields rest

/-- `json.dumps(message)` for a flat dict (line 122). -/
def json_dumps (d : PyDict) : String := "\x7b" ++ json_fields d ++ "\x7d"

/-- Whether `pat` occurs at the head of `l`. -/
def starts_with (pat l : List Char) : Bool :=
  match pat, l with
  | [], _ => true
  | _ :: _, [] => false
  | p :: ps, c :: cs => p == c && starts_with ps cs

/-- Whether the character sequence `pat` occurs contiguously inside `l`
(substring containment, used to ask whether a credential value appears in a
log record). -/
def occurs_in (pat : List Char) : List Char → Bool
  | [] => starts_with pat []
  | c :: cs => starts_with pat (c :: cs) || occurs_in pat cs

/-- The `JanusMessage` dataclass (lines 17-20): fields `janus` and
`transaction`, both annotated `str`, neither given a default value. -/
structure JanusMessage where
  janus : String
  transaction : String
  deriving DecidableEq

/-- A call of the generated `JanusMessage.__init__` with each field either
supplied as a keyword argument or omitted.  A dataclass field without a
default makes its argument required, so omitting one raises
`TypeError: __init__() missing 1 required positional argument`. -/
def mk_janus_message (janus : Option String) (transaction : Option String) :
    Except PyError JanusMessage :=
  match janus, transaction with
  | some j, some t => Except.ok ⟨j, t⟩
  | some _, none => Except.error (PyError.typeErrorMissingArg "JanusMessage" "transaction")
  | none, _ => Except.error (PyError.typeErrorMissingArg "JanusMessage" "janus")

/-- The session objects stored in the Session Registry.  `JanusSession` is
defined outside `src` (it is imported only under `TYPE_CHECKING`, line 11-12);
the transport code reads exactly one attribute of it, `id` (line 46), so it is
modelled as that attribute alone. -/
structure JanusSession where
  id : Int
  deriving DecidableEq

/-- One value of a server reply dict: either a scalar or a nested object of
scalars.  `create_session` subscripts a reply exactly one object level deep
(`response["data"]["id"]`, line 37), so one level of nesting is modelled. -/
inductive JField where
  | scalar (v : PyVal)
  | obj (fields : List (String × PyVal))
  deriving DecidableEq

/-- A server reply as returned by a concrete `send`. -/
abbrev JReply := List (String × JField)

/-- Subscription `response[k]` on a reply dict: `KeyError` when absent. -/
def reply_item (r : JReply) (k : String) : Except PyError JField :=
  match pyGet r k with
  | some f => Except.ok f
  | none => Except.error (PyError.keyError k)

/-- Subscription `f[k]` on a reply value: `KeyError` when the object lacks the
key, `TypeError` when a scalar is subscripted. -/
def field_item (f : JField) (k : String) : Except PyError PyVal :=
  match f with
  | JField.obj fields =>
      match pyGet fields k with
      | some v => Except.ok v
      | none => Except.error (PyError.keyError k)
  | JField.scalar _ => Except.error PyError.typeErrorNotSubscriptable

/-- Python `int(v)`: an int passes through; a string is parsed as a decimal
integer, raising `ValueError` when it does not parse. -/
def py_int : PyVal → Except PyError Int
  | PyVal.num n => Except.ok n
  | PyVal.str s =>
      match s.toInt? with
      | some n => Except.ok n
      | none => Except.error (PyError.valueError s)

/-- `JanusTransport.create_session` (lines 31-42).  `self.send` is abstract on
`JanusTransport` (lines 24-26) and `JanusTransportHTTP` does not subclass
`JanusTransport`, so the method is modelled as parameterized over the concrete
`send` it would dispatch to; `self.sessions` (line 40, an attribute nothing in
`src` declares on `JanusTransport` itself) is the explicit registry argument,
returned updated.  Line 34 constructs `JanusMessage` passing only the `janus`
keyword; line 37 is `int(response["data"]["id"])`; line 40 registers the
session under the extracted id; line 42 returns the id. -/
def create_session (send_fn : JanusMessage → Except PyError JReply)
    (sessions : List (Int × JanusSession)) (session : JanusSession) :
    Except PyError (Int × List (Int × JanusSession)) := do
  let msg ← mk_janus_message (some "create") none
  let response ← send_fn msg
  let data ← reply_item response "data"
  let idv ← field_item data "id"
  let session_id ← py_int idv
  Except.ok (session_id, pySet sessions session_id session)

/-- `JanusTransport.destroy_session` (lines 44-46): `del self.sessions[session.id]`.
`del` on a dict raises `KeyError` when the key is absent and removes that
key's binding when present; no wire traffic is emitted. -/
def destroy_session (sessions : List (Int × JanusSession))
    (session : JanusSession) :
    Except PyError (List (Int × JanusSession)) :=
  match pyGet sessions session.id with
  | none => Except.error (PyError.keyError (toString session.id))
  | some _ => Except.ok (pyDel sessions session.id)

/-- The per-instance state of `JanusTransportHTTP`: exactly the attributes
`__init__` (lines 61-64) assigns on `self` — `uri`, `api_secret`, `token`.
`None` defaults are modelled by `Option`. -/
structure JanusTransportHTTP where
  uri : String
  api_secret : Option String
  token : Option String
  deriving DecidableEq

/-- The class-level state of `JanusTransportHTTP`: `transactions` (line 56)
and `sessions` (line 57) are declared as class attributes initialized with
`dict()`, and no method ever assigns `self.transactions` or `self.sessions`
(only item assignment and `del`, which mutate the dict object itself), so a
single pair of dict objects is shared by every instance of the class.  A
transaction maps to an `asyncio.Queue` of inbound messages, modelled as a
list; `receive` (lines 144-145) is `pass`, so no queue is ever filled. -/
structure ClassState where
  transactions : List (String × List PyDict)
  sessions : List (Int × JanusSession)
  deriving DecidableEq

/-- Python `uri.rstrip("/")`: remove every trailing `/`. -/
def rstrip_slashes (s : String) : String :=
  String.mk ((s.data.reverse.dropWhile (fun c => c == '/')).reverse)

/-- `JanusTransportHTTP.__init__` (lines 61-64). -/
def janus_transport_http_init (uri : String)
    (api_secret : Option String) (token : Option String) : JanusTransportHTTP :=
  ⟨rstrip_slashes uri, api_secret, token⟩

/-- Python attribute lookup of `self.transactions` on a `JanusTransportHTTP`
instance: the instance dictionary never holds a `transactions` entry (no
method assigns it), so lookup falls through to the one class-level dict,
whichever instance it is read through. -/
def instance_transactions (_self : JanusTransportHTTP) (cls : ClassState) :
    List (String × List PyDict) :=
  cls.transactions

/-- Python attribute lookup of `self.sessions` on a `JanusTransportHTTP`
instance: as for `instance_transactions`, the lookup reaches the single
class-level dict shared by every instance. -/
def instance_sessions (_self : JanusTransportHTTP) (cls : ClassState) :
    List (Int × JanusSession) :=
  cls.sessions

/-- `uuid.uuid4().hex` (line 111): a freshly generated random 128-bit value in
hex.  The generator is modelled as a supply of pairwise-distinct opaque
strings indexed by a counter threaded through `send`; global uniqueness of the
drawn values is the property of `uuid4` the code relies on. -/
def uuid4hex (n : Nat) : String :=
  String.mk (List.replicate (n + 1) 'f')

/-- The f-string of the `logger.warn` call in `__sanitize_message`
(lines 71-73). -/
def warn_override (v : PyVal) : String :=
  "Should not set transaction (" ++ pyStr v ++ "). Overriding."

/-- Python truthiness of an `int`-or-`None` value: `__build_uri` tests
`if session_id:` (line 78), which is false both for `None` and for `0`. -/
def py_truthy : Option Int → Bool
  | none => false
  | some n => n != 0

/-- `JanusTransportHTTP.__build_uri` (lines 75-84). -/
def build_uri (self : JanusTransportHTTP)
    (session_id handle_id : Option Int) : String :=
  if py_truthy session_id then
    if py_truthy handle_id then
      self.uri ++ "/" ++ toString (session_id.getD 0) ++ "/"
        ++ toString (handle_id.getD 0)
    else
      self.uri ++ "/" ++ toString (session_id.getD 0)
  else
    self.uri

/-- Attribute access `message.transaction` where `message` is a builtin
`dict` (lines 137 and 141): a dict object defines no attribute named
`transaction` (subscription `message["transaction"]` would be `pyGet`), so
this raises `AttributeError` whatever keys the dict holds. -/
def dict_attr (attr : String) : Except PyError PyVal :=
  Except.error (PyError.attributeError "dict" attr)

/-- The outcome of one call to `JanusTransportHTTP.send`. -/
inductive SendRes where
  | ok (response : PyDict)
  | error (e : PyError)
  | blocked
  deriving DecidableEq

/-- Everything observable after a call to `JanusTransportHTTP.send`: the
returned value or raised exception, the caller's message dict after in-place
mutation, the class-level state, the records written through `logger`, the
HTTP requests issued (the GET of lines 124-127 carries a URI and no body),
and the uuid-supply counter. -/
structure SendOutcome where
  result : SendRes
  message : PyDict
  cls : ClassState
  logs : List String
  wire : List String
  gen : Nat
  deriving DecidableEq

/-- `JanusTransportHTTP.send` (lines 97-142), line by line.
`__sanitize_message` (line 108, body at lines 66-73) raises
`Exception: Must set "janus" field` when the `janus` key is absent and logs a
warning when the caller set `transaction`; line 111 draws `uuid4().hex`;
line 112 registers a fresh empty queue in the class-level transaction table;
line 113 overwrites `message["transaction"]`; lines 116-119 attach the
configured credentials; line 122 serializes the message; line 123 logs
`Send: ` followed by the serialized message; lines 124-127 issue the GET.
Line 137 then evaluates `message.transaction` — attribute access on a dict —
which raises `AttributeError`, so lines 137-142 never complete: no reply is
consumed, the table entry is not deleted, and `send` never returns.  The
translation of those dead lines is kept under the impossible `Except.ok`
branch of `dict_attr` for completeness: queue lookup, `await queue.get()`
(blocking forever when empty, since `receive` never enqueues), the response
log of line 138, and the `del` of line 141. -/
def send (self : JanusTransportHTTP) (cls : ClassState) (gen : Nat)
    (message : PyDict) (session_id handle_id : Option Int) : SendOutcome :=
  match pyGet message "janus" with
  | none =>
      ⟨SendRes.error PyError.exceptionMustSetJanus, message, cls, [], [], gen⟩
  | some _ =>
      let warn_logs : List String :=
        match pyGet message "transaction" with
        | some v => [warn_override v]
        | none => []
      let transaction_id := uuid4hex gen
      let cls1 : ClassState := ⟨pySet cls.transactions transaction_id [], cls.sessions⟩
      let msg1 := pySet message "transaction" (PyVal.str transaction_id)
      let msg2 :=
        match self.api_secret with
        | some s => pySet msg1 "api_secret" (PyVal.str s)
        | none => msg1
      let msg3 :=
        match self.token with
        | some t => pySet msg2 "token" (PyVal.str t)
        | none => msg2
      let logs1 := warn_logs ++ ["Send: " ++ json_dumps msg3]
      let wire1 := [build_uri self session_id handle_id]
      match dict_attr "transaction" with
      | Except.error e => ⟨SendRes.error e, msg3, cls1, logs1, wire1, gen + 1⟩
      | Except.ok keyv =>
          match keyv with
          | PyVal.num n =>
              ⟨SendRes.error (PyError.keyError (toString n)), msg3, cls1, logs1,
                wire1, gen + 1⟩
          | PyVal.str key =>
              match pyGet cls1.transactions key with
              | none =>
                  ⟨SendRes.error (PyError.keyError key), msg3, cls1, logs1,
                    wire1, gen + 1⟩
              | some [] => ⟨SendRes.blocked, msg3, cls1, logs1, wire1, gen + 1⟩
              | some (response :: rest) =>
                  let cls2 : ClassState :=
                    ⟨pySet cls1.transactions key rest, cls1.sessions⟩
                  let logs2 :=
                    logs1 ++ ["Transaction response: " ++ json_dumps response]
                  match dict_attr "transaction" with
                  | Except.error e =>
                      ⟨SendRes.error e, msg3, cls2, logs2, wire1, gen + 1⟩
                  | Except.ok keyv2 =>
                      match keyv2 with
                      | PyVal.str key2 =>
                          ⟨SendRes.ok response, msg3,
                            ⟨pyDel cls2.transactions key2, cls2.sessions⟩,
                            logs2, wire1, gen + 1⟩
                      | PyVal.num n2 =>
                          ⟨SendRes.error (PyError.keyError (toString n2)), msg3,
                            cls2, logs2, wire1, gen + 1⟩

/-- The caller's message dict as it stands after lines 110-119 of `send`:
`transaction` overwritten with the freshly drawn id, then each configured
credential attached as a top-level field. -/
def sent_message (self : JanusTransportHTTP) (gen : Nat) (message : PyDict) :
    PyDict :=
  let msg1 := pySet message "transaction" (PyVal.str (uuid4hex gen))
  let msg2 :=
    match self.api_secret with
    | some s => pySet msg1 "api_secret" (PyVal.str s)
    | none => msg1
  match self.token with
  | some t => pySet msg2 "token" (PyVal.str t)
  | none => msg2

/-- The warning records `__sanitize_message` emits for a message: one when the
caller populated `transaction`, none otherwise. -/
def warn_logs_of (message : PyDict) : List String :=
  match pyGet message "transaction" with
  | some v => [warn_override v]
  | none => []

theorem pyGet_pySet_self [DecidableEq κ] (d : List (κ × α)) (k : κ) (v : α) :
    pyGet (pySet d k v) k = some v := by
  induction d with
  | nil => simp [pySet, pyGet]
  | cons hd tl ih =>
      obtain ⟨k', v'⟩ := hd
      by_cases hk : k' = k
      · simp [pySet, pyGet, hk]
      · simp [pySet, pyGet, hk, ih]

theorem pyGet_pySet_ne [DecidableEq κ] (d : List (κ × α)) (k k' : κ) (v : α)
    (h : k' ≠ k) : pyGet (pySet d k v) k' = pyGet d k' := by
  induction d with
  | nil => simp [pySet, pyGet, Ne.symm h]
  | cons hd tl ih =>
      obtain ⟨k'', v''⟩ := hd
      by_cases hk : k'' = k
      · subst hk
        simp [pySet, pyGet, Ne.symm h]
      · simp [pySet, pyGet, hk, ih]

theorem pyGet_pyDel_self [DecidableEq κ] (d : List (κ × α)) (k : κ) :
    pyGet (pyDel d k) k = none := by
  induction d with
  | nil => simp [pyDel, pyGet]
  | cons hd tl ih =>
      obtain ⟨k', v'⟩ := hd
      by_cases hk : k' = k
      · simp [pyDel, hk, ih]
      · simp [pyDel, pyGet, hk, ih]

theorem pyGet_pyDel_ne [DecidableEq κ] (d : List (κ × α)) (k k' : κ)
    (h : k' ≠ k) : pyGet (pyDel d k) k' = pyGet d k' := by
  induction d with
  | nil => simp [pyDel]
  | cons hd tl ih =>
      obtain ⟨k'', v''⟩ := hd
      by_cases hk : k'' = k
      · subst hk
        simp [pyDel, pyGet, Ne.symm h, ih]
      · simp [pyDel, pyGet, hk, ih]

theorem pyGet_pySet_isSome [DecidableEq κ] (d : List (κ × α)) (k k' : κ)
    (v : α) (h : (pyGet d k').isSome = true) :
    (pyGet (pySet d k v) k').isSome = true := by
  by_cases hk : k' = k
  · subst hk
    simp [pyGet_pySet_self]
  · rwa [pyGet_pySet_ne d k k' v hk]

theorem uuid4hex_injective : Function.Injective uuid4hex := by
  intro a b h
  have hl : a + 1 = b + 1 := by
    simpa [uuid4hex] using congrArg String.length h
  omega

/-- Unfolding of `send` on a message that passes `__sanitize_message`: the
table gains the fresh slot, the message is mutated, the serialized message is
logged, the GET is issued, and the call raises `AttributeError` at line 137. -/
theorem send_janus_some (self : JanusTransportHTTP) (cls : ClassState)
    (gen : Nat) (message : PyDict) (sid hid : Option Int) (v : PyVal)
    (hv : pyGet message "janus" = some v) :
    send self cls gen message sid hid =
      ⟨SendRes.error (PyError.attributeError "dict" "transaction"),
       sent_message self gen message,
       ⟨pySet cls.transactions (uuid4hex gen) [], cls.sessions⟩,
       warn_logs_of message
         ++ ["Send: " ++ json_dumps (sent_message self gen message)],
       [build_uri self sid hid],
       gen + 1⟩ := by
  simp only [send, hv, dict_attr, sent_message, warn_logs_of]

theorem sent_message_transaction (self : JanusTransportHTTP) (gen : Nat)
    (message : PyDict) :
    pyGet (sent_message self gen message) "transaction"
      = some (PyVal.str (uuid4hex gen)) := by
  unfold sent_message
  cases hA : self.api_secret <;> cases hT : self.token <;>
    simp [pyGet_pySet_self, pyGet_pySet_ne, show "transaction" ≠ "token" by decide,
      show "transaction" ≠ "api_secret" by decide]

theorem sent_message_api_secret_some (self : JanusTransportHTTP) (gen : Nat)
    (message : PyDict) (s : String) (h : self.api_secret = some s) :
    pyGet (sent_message self gen message) "api_secret" = some (PyVal.str s) := by
  unfold sent_message
  cases hT : self.token <;>
    simp [h, pyGet_pySet_self, pyGet_pySet_ne,
      show "api_secret" ≠ "token" by decide]

theorem sent_message_api_secret_none (self : JanusTransportHTTP) (gen : Nat)
    (message : PyDict) (h : self.api_secret = none) :
    pyGet (sent_message self gen message) "api_secret"
      = pyGet message "api_secret" := by
  unfold sent_message
  cases hT : self.token <;>
    simp [h, pyGet_pySet_ne, show "api_secret" ≠ "token" by decide,
      show "api_secret" ≠ "transaction" by decide]

theorem sent_message_token_some (self : JanusTransportHTTP) (gen : Nat)
    (message : PyDict) (t : String) (h : self.token = some t) :
    pyGet (sent_message self gen message) "token" = some (PyVal.str t) := by
  unfold sent_message
  cases hA : self.api_secret <;> simp [h, pyGet_pySet_self]

theorem sent_message_token_none (self : JanusTransportHTTP) (gen : Nat)
    (message : PyDict) (h : self.token = none) :
    pyGet (sent_message self gen message) "token" = pyGet message "token" := by
  unfold sent_message
  cases hA : self.api_secret <;>
    simp [h, pyGet_pySet_ne, show "token" ≠ "api_secret" by decide,
      show "token" ≠ "transaction" by decide]

/-- C1: the claim says the transaction slot is created immediately before
transmission and removed immediately after the first matching reply is
consumed, so that after `send` returns the id is gone from the table.  The
code registers the slot and issues the GET, but then raises `AttributeError`
at line 137 (`message.transaction` is attribute access on a dict), so no
reply is ever consumed, the slot is never removed, and `send` never returns —
contradicting the code's own comments at lines 135-136 and 140. -/
theorem c1_send_raises_and_leaks_slot :
    (send (janus_transport_http_init "http://localhost:8088/janus" none none)
        ⟨[], []⟩ 0 [("janus", PyVal.str "keepalive")] none none).result
      = SendRes.error (PyError.attributeError "dict" "transaction")
  ∧ pyGet (send (janus_transport_http_init "http://localhost:8088/janus" none none)
        ⟨[], []⟩ 0 [("janus", PyVal.str "keepalive")] none none).cls.transactions
      (uuid4hex 0) = some []
  ∧ (send (janus_transport_http_init "http://localhost:8088/janus" none none)
        ⟨[], []⟩ 0 [("janus", PyVal.str "keepalive")] none none).wire
      = ["http://localhost:8088/janus"] := by
  decide

/-- C2: for every message accepted by `__sanitize_message`, `send` stores a
freshly drawn transaction id in the message's `transaction` field, overriding
whatever the caller put there, with only a (non-fatal) warning logged when the
caller had populated the field; ids drawn at different counter states are
pairwise distinct. -/
theorem c2_fresh_transaction_overrides_caller (self : JanusTransportHTTP)
    (cls : ClassState) (gen : Nat) (message : PyDict) (sid hid : Option Int)
    (h : (pyGet message "janus").isSome = true) :
    pyGet (send self cls gen message sid hid).message "transaction"
        = some (PyVal.str (uuid4hex gen))
  ∧ (send self cls gen message sid hid).gen = gen + 1
  ∧ Function.Injective uuid4hex
  ∧ (send self cls gen message sid hid).logs
      = warn_logs_of message
        ++ ["Send: " ++ json_dumps (send self cls gen message sid hid).message] := by
  obtain ⟨v, hv⟩ := Option.isSome_iff_exists.mp h
  rw [send_janus_some self cls gen message sid hid v hv]
  exact ⟨sent_message_transaction self gen message, rfl, uuid4hex_injective, rfl⟩

theorem c2_witness :
    (pyGet [("janus", PyVal.str "create"), ("transaction", PyVal.str "evil")]
        "janus").isSome = true
  ∧ (pyGet (send ⟨"u", none, none⟩ ⟨[], []⟩ 0
          [("janus", PyVal.str "create"), ("transaction", PyVal.str "evil")]
          none none).message "transaction"
        = some (PyVal.str (uuid4hex 0))
     ∧ (send ⟨"u", none, none⟩ ⟨[], []⟩ 0
          [("janus", PyVal.str "create"), ("transaction", PyVal.str "evil")]
          none none).gen = 0 + 1
     ∧ Function.Injective uuid4hex
     ∧ (send ⟨"u", none, none⟩ ⟨[], []⟩ 0
          [("janus", PyVal.str "create"), ("transaction", PyVal.str "evil")]
          none none).logs
         = warn_logs_of
             [("janus", PyVal.str "create"), ("transaction", PyVal.str "evil")]
           ++ ["Send: " ++ json_dumps (send ⟨"u", none, none⟩ ⟨[], []⟩ 0
                 [("janus", PyVal.str "create"), ("transaction", PyVal.str "evil")]
                 none none).message]) :=
  ⟨by decide,
   c2_fresh_transaction_overrides_caller ⟨"u", none, none⟩ ⟨[], []⟩ 0
     [("janus", PyVal.str "create"), ("transaction", PyVal.str "evil")]
     none none (by decide)⟩

/-- C3 counterexample: a request that never receives a reply does not fail
with a timeout — `send` has no deadline at all; at this input it raises
`AttributeError` and its slot stays registered in the transaction table. -/
theorem c3_counterexample_no_timeout_slot_kept :
    (send ⟨"u", none, none⟩ ⟨[], []⟩ 0 [("janus", PyVal.str "keepalive")]
        none none).result ≠ SendRes.error PyError.timeoutError
  ∧ pyGet (send ⟨"u", none, none⟩ ⟨[], []⟩ 0
        [("janus", PyVal.str "keepalive")] none none).cls.transactions
      (uuid4hex 0) = some [] := by
  decide

/-- C3 amended: `send` configures no deadline and no call ever fails with a
timeout error; on a message that passes sanitization the fresh slot is in the
table when the call ends, and no pre-existing slot is ever removed, so
repeated reply-less sends grow the table instead of cleaning it. -/
theorem c3_amended_no_timeout (self : JanusTransportHTTP) (cls : ClassState)
    (gen : Nat) (message : PyDict) (sid hid : Option Int) :
    (send self cls gen message sid hid).result
        ≠ SendRes.error PyError.timeoutError
  ∧ ((pyGet message "janus").isSome = true →
      pyGet (send self cls gen message sid hid).cls.transactions (uuid4hex gen)
        = some [])
  ∧ ∀ k, (pyGet cls.transactions k).isSome = true →
      (pyGet (send self cls gen message sid hid).cls.transactions k).isSome
        = true := by
  cases hj : pyGet message "janus" with
  | none =>
      refine ⟨by simp [send, hj], fun hs => ?_, fun k hk => ?_⟩
      · simp at hs
      · simpa [send, hj] using hk
  | some v =>
      rw [send_janus_some self cls gen message sid hid v hj]
      exact ⟨by simp, fun _ => pyGet_pySet_self _ _ _,
        fun k hk => pyGet_pySet_isSome _ _ _ _ hk⟩

theorem c3_amended_witness :
    (pyGet [("janus", PyVal.str "keepalive")] "janus").isSome = true
  ∧ pyGet (send ⟨"w", none, none⟩ ⟨[], []⟩ 0
        [("janus", PyVal.str "keepalive")] none none).cls.transactions
      (uuid4hex 0) = some [] :=
  ⟨by decide,
   (c3_amended_no_timeout ⟨"w", none, none⟩ ⟨[], []⟩ 0
      [("janus", PyVal.str "keepalive")] none none).2.1 (by decide)⟩

/-- C4 counterexample: two distinct `JanusTransportHTTP` instances do not own
separate tables — registering a transaction through one instance makes it
observed through the other, because `transactions` is a class attribute
(line 56) shared by every instance. -/
theorem c4_counterexample_shared_table :
    janus_transport_http_init "http://a" none none
        ≠ janus_transport_http_init "http://b" none none
  ∧ pyGet (instance_transactions (janus_transport_http_init "http://b" none none)
        ⟨[], []⟩) (uuid4hex 0) = none
  ∧ pyGet (instance_transactions (janus_transport_http_init "http://b" none none)
        ((send (janus_transport_http_init "http://a" none none) ⟨[], []⟩ 0
          [("janus", PyVal.str "create")] none none).cls))
      (uuid4hex 0) = some [] := by
  decide

/-- C4 amended: the Transaction Table and Session Registry are class-level
attributes of `JanusTransportHTTP` shared by all instances: every instance
observes the same tables, and a transaction registered through one instance's
`send` is observed through any other instance. -/
theorem c4_amended_class_level_registries (a b : JanusTransportHTTP)
    (cls : ClassState) (gen : Nat) (message : PyDict) (sid hid : Option Int) :
    instance_transactions a cls = instance_transactions b cls
  ∧ instance_sessions a cls = instance_sessions b cls
  ∧ ((pyGet message "janus").isSome = true →
      pyGet (instance_transactions b (send a cls gen message sid hid).cls)
        (uuid4hex gen) = some []) := by
  refine ⟨rfl, rfl, fun h => ?_⟩
  obtain ⟨v, hv⟩ := Option.isSome_iff_exists.mp h
  rw [send_janus_some a cls gen message sid hid v hv]
  exact pyGet_pySet_self _ _ _

theorem c4_amended_witness :
    (pyGet [("janus", PyVal.str "info")] "janus").isSome = true
  ∧ pyGet (instance_transactions ⟨"b", none, none⟩
        ((send ⟨"a", none, none⟩ ⟨[], []⟩ 0 [("janus", PyVal.str "info")]
          none none).cls)) (uuid4hex 0) = some [] :=
  ⟨by decide,
   (c4_amended_class_level_registries ⟨"a", none, none⟩ ⟨"b", none, none⟩
      ⟨[], []⟩ 0 [("janus", PyVal.str "info")] none none).2.2 (by decide)⟩

/-- C5: a message lacking the `janus` key makes `send` fail in
`__sanitize_message` — the raise the spec's taxonomy names `ValidationError` —
before any transaction id is drawn, with the transaction table, the message,
the uuid supply, the log and the wire all untouched. -/
theorem c5_missing_janus_fails_early (self : JanusTransportHTTP)
    (cls : ClassState) (gen : Nat) (message : PyDict) (sid hid : Option Int)
    (h : pyGet message "janus" = none) :
    (send self cls gen message sid hid).result
        = SendRes.error PyError.exceptionMustSetJanus
  ∧ (send self cls gen message sid hid).cls = cls
  ∧ (send self cls gen message sid hid).message = message
  ∧ (send self cls gen message sid hid).gen = gen
  ∧ (send self cls gen message sid hid).logs = []
  ∧ (send self cls gen message sid hid).wire = [] := by
  simp [send, h]

theorem c5_witness :
    pyGet ([("transaction", PyVal.str "t1")] : PyDict) "janus" = none
  ∧ ((send ⟨"u", none, none⟩ ⟨[], []⟩ 0 [("transaction", PyVal.str "t1")]
          none none).result = SendRes.error PyError.exceptionMustSetJanus
     ∧ (send ⟨"u", none, none⟩ ⟨[], []⟩ 0 [("transaction", PyVal.str "t1")]
          none none).cls = ⟨[], []⟩
     ∧ (send ⟨"u", none, none⟩ ⟨[], []⟩ 0 [("transaction", PyVal.str "t1")]
          none none).message = [("transaction", PyVal.str "t1")]
     ∧ (send ⟨"u", none, none⟩ ⟨[], []⟩ 0 [("transaction", PyVal.str "t1")]
          none none).gen = 0
     ∧ (send ⟨"u", none, none⟩ ⟨[], []⟩ 0 [("transaction", PyVal.str "t1")]
          none none).logs = []
     ∧ (send ⟨"u", none, none⟩ ⟨[], []⟩ 0 [("transaction", PyVal.str "t1")]
          none none).wire = []) :=
  ⟨by decide,
   c5_missing_janus_fails_early ⟨"u", none, none⟩ ⟨[], []⟩ 0
     [("transaction", PyVal.str "t1")] none none (by decide)⟩

/-- C6: the claim says `create_session` extracts the session id from the
reply, registers the session under that id and returns it — which is exactly
what lines 36-42 are written to do — but line 34 constructs
`JanusMessage(janus="create")` while the dataclass gives `transaction` no
default, so every call raises `TypeError` before anything is sent, whatever
the reply would have been and whatever session is passed. -/
theorem c6_create_session_constructor_typeerror
    (send_fn : JanusMessage → Except PyError JReply)
    (sessions : List (Int × JanusSession)) (session : JanusSession) :
    create_session send_fn sessions session
      = Except.error (PyError.typeErrorMissingArg "JanusMessage" "transaction") :=
  rfl

/-- C7 counterexample: against a server whose reply to "create" lacks the
`data` field, `create_session` does not fail with the spec's `ProtocolError`
— it fails with the `TypeError` raised while constructing the outgoing
message, before the reply is ever examined. -/
theorem c7_counterexample_not_protocol_error :
    create_session
        (fun _ => Except.ok [("janus", JField.scalar (PyVal.str "success"))])
        [] ⟨1⟩ ≠ Except.error PyError.protocolError
  ∧ create_session
        (fun _ => Except.ok [("janus", JField.scalar (PyVal.str "success"))])
        [] ⟨1⟩
      = Except.error (PyError.typeErrorMissingArg "JanusMessage" "transaction") := by
  refine ⟨fun h => ?_, rfl⟩
  exact absurd (Except.error.inj h) (by simp)

/-- C7 amended: for every reply — in particular every reply lacking the
identifier field — `create_session` fails, but never with anything resembling
`ProtocolError`: the failure is always the `TypeError` from
`JanusMessage(janus="create")`, raised before the reply is examined (and the
extraction `int(response["data"]["id"])` at line 37 would surface a missing
field as a bare `KeyError`, not a dedicated protocol error, were it ever
reached). -/
theorem c7_amended_always_constructor_typeerror
    (send_fn : JanusMessage → Except PyError JReply)
    (sessions : List (Int × JanusSession)) (session : JanusSession) :
    create_session send_fn sessions session ≠ Except.error PyError.protocolError
  ∧ create_session send_fn sessions session
      = Except.error (PyError.typeErrorMissingArg "JanusMessage" "transaction") := by
  refine ⟨fun h => ?_, rfl⟩
  exact absurd (Except.error.inj h) (by simp)

/-- C8: for every message accepted by `send`, a configured shared secret is
attached verbatim as the top-level `api_secret` field and a configured token
as the top-level `token` field; an unconfigured credential leaves the
corresponding field of the message exactly as the caller had it (none is
added). -/
theorem c8_credentials_attached (self : JanusTransportHTTP) (cls : ClassState)
    (gen : Nat) (message : PyDict) (sid hid : Option Int)
    (h : (pyGet message "janus").isSome = true) :
    (∀ s, self.api_secret = some s →
        pyGet (send self cls gen message sid hid).message "api_secret"
          = some (PyVal.str s))
  ∧ (self.api_secret = none →
        pyGet (send self cls gen message sid hid).message "api_secret"
          = pyGet message "api_secret")
  ∧ (∀ t, self.token = some t →
        pyGet (send self cls gen message sid hid).message "token"
          = some (PyVal.str t))
  ∧ (self.token = none →
        pyGet (send self cls gen message sid hid).message "token"
          = pyGet message "token") := by
  obtain ⟨v, hv⟩ := Option.isSome_iff_exists.mp h
  rw [send_janus_some self cls gen message sid hid v hv]
  exact ⟨fun s hs => sent_message_api_secret_some self gen message s hs,
    fun hn => sent_message_api_secret_none self gen message hn,
    fun t ht => sent_message_token_some self gen message t ht,
    fun hn => sent_message_token_none self gen message hn⟩

theorem c8_witness :
    (pyGet [("janus", PyVal.str "attach")] "janus").isSome = true
  ∧ pyGet (send ⟨"u", some "s3cr3t", some "tok3n"⟩ ⟨[], []⟩ 0
        [("janus", PyVal.str "attach")] none none).message "api_secret"
      = some (PyVal.str "s3cr3t")
  ∧ pyGet (send ⟨"u", some "s3cr3t", some "tok3n"⟩ ⟨[], []⟩ 0
        [("janus", PyVal.str "attach")] none none).message "token"
      = some (PyVal.str "tok3n") :=
  ⟨by decide,
   (c8_credentials_attached ⟨"u", some "s3cr3t", some "tok3n"⟩ ⟨[], []⟩ 0
      [("janus", PyVal.str "attach")] none none (by decide)).1 "s3cr3t" rfl,
   (c8_credentials_attached ⟨"u", some "s3cr3t", some "tok3n"⟩ ⟨[], []⟩ 0
      [("janus", PyVal.str "attach")] none none (by decide)).2.2.1 "tok3n" rfl⟩

/-- C9 counterexample: with a configured shared secret, the log record that
`send` emits at line 123 (`logger.info` of the serialized message, after the
credentials were attached at lines 116-119) contains the credential value as
a substring — the secret is logged. -/
theorem c9_counterexample_secret_logged :
    ((send ⟨"http://s", some "hunter2secret", none⟩ ⟨[], []⟩ 0
        [("janus", PyVal.str "create")] none none).logs.any
      (fun r => occurs_in ("hunter2secret".data) r.data)) = true := by
  decide

/-- C9 amended: every accepted `send` logs `Send: ` followed by the full
serialized message — the message to which each configured credential has just
been attached verbatim — so configured credential values are written to the
log on every send rather than never. -/
theorem c9_amended_message_with_credentials_logged (self : JanusTransportHTTP)
    (cls : ClassState) (gen : Nat) (message : PyDict) (sid hid : Option Int)
    (h : (pyGet message "janus").isSome = true) :
    ("Send: " ++ json_dumps (send self cls gen message sid hid).message)
        ∈ (send self cls gen message sid hid).logs
  ∧ (∀ s, self.api_secret = some s →
      pyGet (send self cls gen message sid hid).message "api_secret"
        = some (PyVal.str s)) := by
  obtain ⟨v, hv⟩ := Option.isSome_iff_exists.mp h
  rw [send_janus_some self cls gen message sid hid v hv]
  exact ⟨by simp, fun s hs => sent_message_api_secret_some self gen message s hs⟩

theorem c9_amended_witness :
    (pyGet [("janus", PyVal.str "create")] "janus").isSome = true
  ∧ ((("Send: " ++ json_dumps (send ⟨"u", some "sek", none⟩ ⟨[], []⟩ 0
          [("janus", PyVal.str "create")] none none).message)
        ∈ (send ⟨"u", some "sek", none⟩ ⟨[], []⟩ 0
            [("janus", PyVal.str "create")] none none).logs)
     ∧ (∀ s, (some "sek" : Option String) = some s →
        pyGet (send ⟨"u", some "sek", none⟩ ⟨[], []⟩ 0
            [("janus", PyVal.str "create")] none none).message "api_secret"
          = some (PyVal.str s))) :=
  ⟨by decide,
   c9_amended_message_with_credentials_logged ⟨"u", some "sek", none⟩ ⟨[], []⟩
     0 [("janus", PyVal.str "create")] none none (by decide)⟩

/-- C10: `destroy_session` is not idempotent at the transport level — when
the session's id is not a key of the Session Registry (for instance on a
second call after a successful removal), `del self.sessions[session.id]`
raises `KeyError`; when it is registered, exactly that one binding is removed
and every other key's binding is untouched. -/
theorem c10_destroy_session_keyerror (sessions : List (Int × JanusSession))
    (session : JanusSession) :
    ((pyGet sessions session.id).isNone = true →
        destroy_session sessions session
          = Except.error (PyError.keyError (toString session.id)))
  ∧ ((pyGet sessions session.id).isSome = true →
        ∃ rest, destroy_session sessions session = Except.ok rest
          ∧ pyGet rest session.id = none
          ∧ ∀ k, k ≠ session.id → pyGet rest k = pyGet sessions k) := by
  constructor
  · intro h
    cases hcase : pyGet sessions session.id with
    | none => simp [destroy_session, hcase]
    | some q => rw [hcase] at h; simp at h
  · intro h
    obtain ⟨q, hq⟩ := Option.isSome_iff_exists.mp h
    refine ⟨pyDel sessions session.id, ?_, pyGet_pyDel_self _ _,
      fun k hk => pyGet_pyDel_ne _ _ _ hk⟩
    simp [destroy_session, hq]

theorem c10_witness :
    (pyGet [((5 : Int), (⟨5⟩ : JanusSession))] ((⟨5⟩ : JanusSession).id)).isSome
        = true
  ∧ ∃ rest, destroy_session [((5 : Int), (⟨5⟩ : JanusSession))] ⟨5⟩
        = Except.ok rest
      ∧ pyGet rest ((⟨5⟩ : JanusSession).id) = none
      ∧ ∀ k, k ≠ (⟨5⟩ : JanusSession).id →
          pyGet rest k = pyGet [((5 : Int), (⟨5⟩ : JanusSession))] k :=
  ⟨by decide,
   (c10_destroy_session_keyerror [((5 : Int), ⟨5⟩)] ⟨5⟩).2 (by decide)⟩
